import Mathlib

/-!
# Verification of the upload-to-generation request pipeline

Shallow embedding of `src/index.js`: an Express gateway with four endpoints
(`/generate-text`, `/generate-from-image`, `/generate-from-document`,
`/generate-from-audio`).  The three media endpoints receive an optional
uploaded file (stored on disk by multer) and an optional prompt, build a
content-part list `[prompt, inlineData-part]`, call the generative backend,
unlink the temporary file, and map the outcome to an HTTP response.

The backend call is modelled as an oracle (`BackendResult`).  The only
environment interference the pipeline can observe is the temporary file
being removed externally while the handler awaits the backend call; this is
modelled by the boolean `removedDuringBackend`.  `fs.unlinkSync` on a
missing file throws (ENOENT); `fs.existsSync` reports presence.  Disposal
activity is recorded as an event trace so that counts and ordering can be
stated.
-/

namespace GeminiGateway

/-- The standard base64 alphabet, indexed 0–63 (RFC 4648). -/
def base64Chars : List Char :=
  ['A', 'B', 'C', 'D', 'E', 'F', 'G', 'H', 'I', 'J', 'K', 'L', 'M',
   'N', 'O', 'P', 'Q', 'R', 'S', 'T', 'U', 'V', 'W', 'X', 'Y', 'Z',
   'a', 'b', 'c', 'd', 'e', 'f', 'g', 'h', 'i', 'j', 'k', 'l', 'm',
   'n', 'o', 'p', 'q', 'r', 's', 't', 'u', 'v', 'w', 'x', 'y', 'z',
   '0', '1', '2', '3', '4', '5', '6', '7', '8', '9', '+', '/']

/-- Character for a six-bit value. -/
def sextetChar (n : Nat) : Char := base64Chars.getD n 'A'

/-- Six-bit value of an alphabet character (inverse lookup). -/
def sextetVal (c : Char) : Nat := base64Chars.indexOf c

/-- Models `Buffer.from(bytes).toString("base64")` from `src/index.js` line 18:
standard RFC 4648 base64 with `=` padding, over bytes given as naturals
below 256. -/
def base64Encode : List Nat → List Char
  | [] => []
  | [b1] =>
      [sextetChar (b1 / 4), sextetChar (b1 % 4 * 16), '=', '=']
  | [b1, b2] =>
      [sextetChar (b1 / 4), sextetChar (b1 % 4 * 16 + b2 / 16),
       sextetChar (b2 % 16 * 4), '=']
  | b1 :: b2 :: b3 :: rest =>
      sextetChar (b1 / 4) ::
      sextetChar (b1 % 4 * 16 + b2 / 16) ::
      sextetChar (b2 % 16 * 4 + b3 / 64) ::
      sextetChar (b3 % 64) ::
      base64Encode rest

/-- Models standard base64 decoding (as performed by
`Buffer.from(s, "base64")`), used to state the round-trip property of the
encoder; the repository itself only encodes. -/
def base64Decode : List Char → List Nat
  | c1 :: c2 :: c3 :: c4 :: rest =>
      if c3 = '=' then
        [sextetVal c1 * 4 + sextetVal c2 / 16]
      else if c4 = '=' then
        [sextetVal c1 * 4 + sextetVal c2 / 16,
         sextetVal c2 % 16 * 16 + sextetVal c3 / 4]
      else
        (sextetVal c1 * 4 + sextetVal c2 / 16) ::
        (sextetVal c2 % 16 * 16 + sextetVal c3 / 4) ::
        (sextetVal c3 % 4 * 64 + sextetVal c4) ::
        base64Decode rest
  | _ => []

/-- The `inlineData` object built by `fileToGenerativePart`
(`src/index.js` lines 16–21). -/
structure InlineData where
  data : List Char
  mimeType : String
deriving DecidableEq, Repr

/-- The generative part object returned by `fileToGenerativePart`. -/
structure GenerativePart where
  inlineData : InlineData
deriving DecidableEq, Repr

/-- Embeds `fileToGenerativePart(filePath, mimeType)` (`src/index.js`
lines 15–22).  The synchronous file read is modelled by passing the stored
bytes directly; the declared MIME type is carried through unchanged. -/
def fileToGenerativePart (content : List Nat) (mimeType : String) : GenerativePart :=
  { inlineData := { data := base64Encode content, mimeType := mimeType } }

/-- A multer-stored upload: `req.file.path`, `req.file.mimetype`, and the
bytes written to `uploads/`. -/
structure UploadedFile where
  path : String
  mimetype : String
  content : List Nat
deriving DecidableEq, Repr

/-- The parsed inbound request seen by a media handler: `req.file`
(absent when no file was attached) and `req.body.prompt` (absent when the
field was not sent). -/
structure MediaRequest where
  file : Option UploadedFile
  prompt : Option String
deriving DecidableEq, Repr

/-- Oracle for `model.generateContent`: either it resolves with text or it
throws with a message. -/
inductive BackendResult where
  | ok (text : String)
  | err (msg : String)
deriving DecidableEq, Repr

/-- The JSON body of the HTTP response: `{text}` or `{error}`. -/
inductive RespBody where
  | text (s : String)
  | error (s : String)
deriving DecidableEq, Repr

/-- One element of the array handed to `model.generateContent`: the raw
prompt string or the generative media part. -/
inductive ReqPart where
  | text (s : String)
  | media (p : GenerativePart)
deriving DecidableEq, Repr

/-- Observable events of one handler invocation: the backend call, and each
`fs.unlinkSync` invocation on the temporary file (`ok := false` when the
unlink threw because the file was already gone). -/
inductive Ev where
  | backendCall
  | unlinkAttempt (ok : Bool)
deriving DecidableEq, Repr

/-- The observable outcome of one media-handler invocation. -/
structure Outcome where
  status : Nat
  body : RespBody
  sentParts : Option (List ReqPart)
  events : List Ev
  fileExistsAfter : Bool
deriving DecidableEq, Repr

/-- JavaScript `p || d` on an optional string: the default is used when the
prompt is absent (`undefined`) or the empty string (both falsy). -/
def jsOr (p : Option String) (d : String) : String :=
  match p with
  | none => d
  | some s => if s = "" then d else s

/-- Message of the error thrown by `fs.unlinkSync` on a missing file. -/
def unlinkFailMsg (path : String) : String :=
  "ENOENT: no such file or directory, unlink " ++ path

/-- The shared shape of the three media handlers (`src/index.js`
lines 55–79, 86–110, 117–141), parameterised by the default prompt and the
missing-file error message.  Control flow per the source: missing file →
400 without calling the backend; otherwise resolve the prompt with `||`,
build `[prompt, part]`, await the backend; on resolution unlink the file
and respond 200 (an unlink throw falls into the catch); on a throw the
catch unlinks only if the file still exists and responds 500 with the
error message. -/
def mediaEndpoint (defaultPrompt errMsg : String) (req : MediaRequest)
    (backend : BackendResult) (removedDuringBackend : Bool) : Outcome :=
  match req.file with
  | none =>
      { status := 400, body := .error errMsg, sentParts := none,
        events := [], fileExistsAfter := false }
  | some f =>
      let prompt := jsOr req.prompt defaultPrompt
      let part := fileToGenerativePart f.content f.mimetype
      let parts := [ReqPart.text prompt, ReqPart.media part]
      match backend with
      | .ok t =>
          if removedDuringBackend then
            { status := 500, body := .error (unlinkFailMsg f.path),
              sentParts := some parts,
              events := [.backendCall, .unlinkAttempt false],
              fileExistsAfter := false }
          else
            { status := 200, body := .text t, sentParts := some parts,
              events := [.backendCall, .unlinkAttempt true],
              fileExistsAfter := false }
      | .err m =>
          if removedDuringBackend then
            { status := 500, body := .error m, sentParts := some parts,
              events := [.backendCall], fileExistsAfter := false }
          else
            { status := 500, body := .error m, sentParts := some parts,
              events := [.backendCall, .unlinkAttempt true],
              fileExistsAfter := false }

/-- Embeds `app.post` for `/generate-from-image` (`src/index.js`
lines 55–79). -/
def generateFromImage (req : MediaRequest) (backend : BackendResult)
    (removedDuringBackend : Bool) : Outcome :=
  match req.file with
  | none =>
      { status := 400, body := .error "No image file uploaded.",
        sentParts := none, events := [], fileExistsAfter := false }
  | some f =>
      let prompt := jsOr req.prompt "Describe this image"
      let imagePart := fileToGenerativePart f.content f.mimetype
      let parts := [ReqPart.text prompt, ReqPart.media imagePart]
      match backend with
      | .ok t =>
          if removedDuringBackend then
            { status := 500, body := .error (unlinkFailMsg f.path),
              sentParts := some parts,
              events := [.backendCall, .unlinkAttempt false],
              fileExistsAfter := false }
          else
            { status := 200, body := .text t, sentParts := some parts,
              events := [.backendCall, .unlinkAttempt true],
              fileExistsAfter := false }
      | .err m =>
          if removedDuringBackend then
            { status := 500, body := .error m, sentParts := some parts,
              events := [.backendCall], fileExistsAfter := false }
          else
            { status := 500, body := .error m, sentParts := some parts,
              events := [.backendCall, .unlinkAttempt true],
              fileExistsAfter := false }

/-- Embeds `app.post` for `/generate-from-document` (`src/index.js`
lines 86–110). -/
def generateFromDocument (req : MediaRequest) (backend : BackendResult)
    (removedDuringBackend : Bool) : Outcome :=
  match req.file with
  | none =>
      { status := 400, body := .error "No document file uploaded.",
        sentParts := none, events := [], fileExistsAfter := false }
  | some f =>
      let prompt := jsOr req.prompt "Summarize this document"
      let documentPart := fileToGenerativePart f.content f.mimetype
      let parts := [ReqPart.text prompt, ReqPart.media documentPart]
      match backend with
      | .ok t =>
          if removedDuringBackend then
            { status := 500, body := .error (unlinkFailMsg f.path),
              sentParts := some parts,
              events := [.backendCall, .unlinkAttempt false],
              fileExistsAfter := false }
          else
            { status := 200, body := .text t, sentParts := some parts,
              events := [.backendCall, .unlinkAttempt true],
              fileExistsAfter := false }
      | .err m =>
          if removedDuringBackend then
            { status := 500, body := .error m, sentParts := some parts,
              events := [.backendCall], fileExistsAfter := false }
          else
            { status := 500, body := .error m, sentParts := some parts,
              events := [.backendCall, .unlinkAttempt true],
              fileExistsAfter := false }

/-- Embeds `app.post` for `/generate-from-audio` (`src/index.js`
lines 117–141). -/
def generateFromAudio (req : MediaRequest) (backend : BackendResult)
    (removedDuringBackend : Bool) : Outcome :=
  match req.file with
  | none =>
      { status := 400, body := .error "No audio file uploaded.",
        sentParts := none, events := [], fileExistsAfter := false }
  | some f =>
      let prompt := jsOr req.prompt "Transcribe this audio"
      let audioPart := fileToGenerativePart f.content f.mimetype
      let parts := [ReqPart.text prompt, ReqPart.media audioPart]
      match backend with
      | .ok t =>
          if removedDuringBackend then
            { status := 500, body := .error (unlinkFailMsg f.path),
              sentParts := some parts,
              events := [.backendCall, .unlinkAttempt false],
              fileExistsAfter := false }
          else
            { status := 200, body := .text t, sentParts := some parts,
              events := [.backendCall, .unlinkAttempt true],
              fileExistsAfter := false }
      | .err m =>
          if removedDuringBackend then
            { status := 500, body := .error m, sentParts := some parts,
              events := [.backendCall], fileExistsAfter := false }
          else
            { status := 500, body := .error m, sentParts := some parts,
              events := [.backendCall, .unlinkAttempt true],
              fileExistsAfter := false }

/-- The observable outcome of one `/generate-text` invocation. -/
structure TextOutcome where
  status : Nat
  body : RespBody
  sentPrompt : Option String
  backendCalls : Nat
  unlinkCalls : Nat
deriving DecidableEq, Repr

/-- Embeds `app.post` for `/generate-text` (`src/index.js` lines 37–48):
the prompt is passed to the backend exactly as received (possibly absent),
with no validation, default substitution, or file handling. -/
def generateText (prompt : Option String) (backend : BackendResult) : TextOutcome :=
  match backend with
  | .ok t =>
      { status := 200, body := .text t, sentPrompt := prompt,
        backendCalls := 1, unlinkCalls := 0 }
  | .err m =>
      { status := 500, body := .error m, sentPrompt := prompt,
        backendCalls := 1, unlinkCalls := 0 }

/-- Whether an event is an unlink attempt. -/
def isUnlinkEv : Ev → Bool
  | .unlinkAttempt _ => true
  | _ => false

/-- Whether an event is an unlink attempt that threw. -/
def isFailedUnlinkEv : Ev → Bool
  | .unlinkAttempt false => true
  | _ => false

/-- Whether an event is the backend call. -/
def isBackendEv : Ev → Bool
  | .backendCall => true
  | _ => false

/-- Number of `fs.unlinkSync` invocations in an invocation. -/
def unlinkCount (o : Outcome) : Nat := o.events.countP isUnlinkEv

/-- Number of `fs.unlinkSync` invocations that threw. -/
def failedUnlinkCount (o : Outcome) : Nat := o.events.countP isFailedUnlinkEv

/-- Number of backend calls in an invocation. -/
def backendCount (o : Outcome) : Nat := o.events.countP isBackendEv

/-- Number of unlink attempts occurring before the backend call begins. -/
def unlinksBeforeBackend (o : Outcome) : Nat :=
  (o.events.takeWhile (fun ev => !(isBackendEv ev))).countP isUnlinkEv

/-- Inverse lookup cancels the alphabet lookup on six-bit values. -/
theorem sextetVal_sextetChar : ∀ n, n < 64 → sextetVal (sextetChar n) = n := by decide

/-- Alphabet characters are never the padding character. -/
theorem sextetChar_ne_pad : ∀ n, n < 64 → sextetChar n ≠ '=' := by decide

/-- Decoding inverts encoding on byte lists. -/
theorem base64Decode_base64Encode (bs : List Nat) (hbs : ∀ b ∈ bs, b < 256) :
    base64Decode (base64Encode bs) = bs := by
  induction bs using base64Encode.induct with
  | case1 => rfl
  | case2 b1 =>
      have hb1 : b1 < 256 := hbs b1 (by simp)
      simp only [base64Encode, base64Decode, if_pos rfl, if_true, ite_true]
      rw [sextetVal_sextetChar _ (by omega), sextetVal_sextetChar _ (by omega)]
      simp only [List.cons.injEq, and_true]
      omega
  | case3 b1 b2 =>
      have hb1 : b1 < 256 := hbs b1 (by simp)
      have hb2 : b2 < 256 := hbs b2 (by simp)
      have h3 : sextetChar (b2 % 16 * 4) ≠ '=' := sextetChar_ne_pad _ (by omega)
      simp only [base64Encode, base64Decode, if_neg h3, if_pos rfl, if_true, ite_true]
      rw [sextetVal_sextetChar _ (by omega), sextetVal_sextetChar _ (by omega),
        sextetVal_sextetChar _ (by omega)]
      simp only [List.cons.injEq, and_true]
      constructor
      · omega
      · omega
  | case4 b1 b2 b3 rest ih =>
      have hb1 : b1 < 256 := hbs b1 (by simp)
      have hb2 : b2 < 256 := hbs b2 (by simp)
      have hb3 : b3 < 256 := hbs b3 (by simp)
      have hrest : ∀ b ∈ rest, b < 256 := fun b hb => hbs b (by simp [hb])
      have h3 : sextetChar (b2 % 16 * 4 + b3 / 64) ≠ '=' := sextetChar_ne_pad _ (by omega)
      have h4 : sextetChar (b3 % 64) ≠ '=' := sextetChar_ne_pad _ (by omega)
      simp only [base64Encode, base64Decode, if_neg h3, if_neg h4]
      rw [sextetVal_sextetChar _ (by omega), sextetVal_sextetChar _ (by omega),
        sextetVal_sextetChar _ (by omega), sextetVal_sextetChar _ (by omega)]
      rw [ih hrest]
      simp only [List.cons.injEq, and_true]
      refine ⟨by omega, by omega, by omega⟩

/-- C9: the three asset-bearing handlers (image, document, audio) are the
same behaviour up to the default prompt and the missing-file error message:
each equals the parameterised handler at its two strings, for every
request, backend outcome, and interference flag.  (The third parameter of
the claim, the multipart field name, lives in the out-of-scope upload
layer.) -/
theorem media_handlers_equivalent :
    ∀ (req : MediaRequest) (b : BackendResult) (r : Bool),
      generateFromImage req b r =
        mediaEndpoint "Describe this image" "No image file uploaded." req b r ∧
      generateFromDocument req b r =
        mediaEndpoint "Summarize this document" "No document file uploaded." req b r ∧
      generateFromAudio req b r =
        mediaEndpoint "Transcribe this audio" "No audio file uploaded." req b r :=
  fun _ _ _ => ⟨rfl, rfl, rfl⟩

/-- C5: a media invocation with no file attached yields status 400 with the
endpoint's missing-file message (for the image endpoint, exactly
"No image file uploaded."), the backend is never called, and no unlink
happens. -/
theorem missing_file_client_error :
    ∀ (d e : String) (b : BackendResult) (r : Bool) (p : Option String),
      mediaEndpoint d e ⟨none, p⟩ b r =
        { status := 400, body := RespBody.error e, sentParts := none,
          events := [], fileExistsAfter := false } ∧
      (generateFromImage ⟨none, p⟩ b r).status = 400 ∧
      (generateFromImage ⟨none, p⟩ b r).body = RespBody.error "No image file uploaded." ∧
      backendCount (generateFromImage ⟨none, p⟩ b r) = 0 ∧
      unlinkCount (generateFromImage ⟨none, p⟩ b r) = 0 := by
  intro d e b r p
  exact ⟨rfl, rfl, rfl, rfl, rfl⟩

/-- C4: when the backend call fails with message `m` on an asset-bearing
invocation, the response is status 500 with `error` exactly `m`, the
backend is called exactly once (no retry), the temporary file no longer
exists after the invocation, and the unlink is performed whenever the file
survived the backend call. -/
theorem backend_failure_surfaced_verbatim :
    ∀ (d e : String) (f : UploadedFile) (p : Option String) (m : String) (r : Bool),
      (mediaEndpoint d e ⟨some f, p⟩ (BackendResult.err m) r).status = 500 ∧
      (mediaEndpoint d e ⟨some f, p⟩ (BackendResult.err m) r).body = RespBody.error m ∧
      backendCount (mediaEndpoint d e ⟨some f, p⟩ (BackendResult.err m) r) = 1 ∧
      (mediaEndpoint d e ⟨some f, p⟩ (BackendResult.err m) r).fileExistsAfter = false ∧
      unlinkCount (mediaEndpoint d e ⟨some f, p⟩ (BackendResult.err m) r) =
        (if r then 0 else 1) := by
  intro d e f p m r
  cases r <;> exact ⟨rfl, rfl, rfl, rfl, rfl⟩

/-- C7: whenever an asset-bearing invocation reaches the backend, the part
list sent is exactly the resolved prompt text first, then one media part,
and the media part carries the uploaded file's declared MIME type
unchanged; in particular the document endpoint with no prompt sends
`[Text "Summarize this document", Media …]`. -/
theorem parts_order_text_then_media :
    ∀ (d e : String) (f : UploadedFile) (p : Option String) (b : BackendResult) (r : Bool),
      (mediaEndpoint d e ⟨some f, p⟩ b r).sentParts =
        some [ReqPart.text (jsOr p d),
              ReqPart.media (fileToGenerativePart f.content f.mimetype)] ∧
      (fileToGenerativePart f.content f.mimetype).inlineData.mimeType = f.mimetype ∧
      (generateFromDocument ⟨some f, none⟩ b r).sentParts =
        some [ReqPart.text "Summarize this document",
              ReqPart.media (fileToGenerativePart f.content f.mimetype)] := by
  intro d e f p b r
  cases b <;> cases r <;> exact ⟨rfl, rfl, rfl⟩

/-- C6: the default prompt is substituted exactly when the caller's prompt
is absent or empty; otherwise the caller's prompt is used verbatim, and in
every case exactly one of the two strings (never a concatenation) is what
the media handlers send as the text part, while the pure-text endpoint
passes the prompt through to the backend unchanged with no default. -/
theorem prompt_resolution_exclusive :
    ∀ (p : Option String) (d : String),
      ((p = none ∨ p = some "") → jsOr p d = d) ∧
      (∀ s, p = some s → s ≠ "" → jsOr p d = s) ∧
      (jsOr p d = d ∨ (p = some (jsOr p d) ∧ jsOr p d ≠ "")) ∧
      (∀ b, (generateText p b).sentPrompt = p) ∧
      (∀ (dp e : String) (f : UploadedFile) (b : BackendResult) (r : Bool),
        (mediaEndpoint dp e ⟨some f, p⟩ b r).sentParts =
          some [ReqPart.text (jsOr p dp),
                ReqPart.media (fileToGenerativePart f.content f.mimetype)]) := by
  intro p d
  refine ⟨?_, ?_, ?_, ?_, ?_⟩
  · rintro (rfl | rfl)
    · rfl
    · simp [jsOr]
  · rintro s rfl hs
    simp [jsOr, hs]
  · cases p with
    | none => exact Or.inl rfl
    | some s =>
        by_cases hs : s = ""
        · subst hs
          exact Or.inl (by simp [jsOr])
        · exact Or.inr ⟨by simp [jsOr, hs], by simp [jsOr, hs]⟩
  · intro b
    cases b <;> rfl
  · intro dp e f b r
    cases b <;> cases r <;> rfl

/-- C6 witness: concrete instances of the prompt-resolution property. -/
theorem prompt_resolution_exclusive_witness :
    jsOr (some "Hello") "Describe this image" = "Hello" ∧
    jsOr none "Describe this image" = "Describe this image" :=
  ⟨(prompt_resolution_exclusive (some "Hello") "Describe this image").2.1 "Hello" rfl
      (by decide),
   (prompt_resolution_exclusive none "Describe this image").1 (Or.inl rfl)⟩

/-- C8: the content-part builder is deterministic and lossless — decoding
the base64 data of the built media part recovers the original bytes, for
every byte list (including the empty one), and equal inputs give equal
parts. -/
theorem content_builder_deterministic_lossless :
    ∀ (bs : List Nat) (mime : String),
      ((∀ b ∈ bs, b < 256) →
        base64Decode (fileToGenerativePart bs mime).inlineData.data = bs) ∧
      (∀ (bs2 : List Nat) (mime2 : String), bs = bs2 → mime = mime2 →
        fileToGenerativePart bs mime = fileToGenerativePart bs2 mime2) ∧
      base64Decode (fileToGenerativePart [] mime).inlineData.data = [] := by
  intro bs mime
  refine ⟨fun h => base64Decode_base64Encode bs h, ?_, rfl⟩
  rintro bs2 mime2 rfl rfl
  rfl

/-- C8 witness: round trip of the concrete bytes `[72, 105, 33]`. -/
theorem content_builder_deterministic_lossless_witness :
    base64Decode (fileToGenerativePart [72, 105, 33] "image/png").inlineData.data =
      [72, 105, 33] :=
  (content_builder_deterministic_lossless [72, 105, 33] "image/png").1 (by decide)

/-- C10: on the error branch the unlink is guarded by `fs.existsSync` and
by the presence of `req.file`, so a failing-backend invocation never has a
throwing unlink, and its unlink count is 1 exactly when a file was
uploaded and still exists at cleanup time, else 0. -/
theorem error_branch_unlink_guarded :
    ∀ (d e : String) (req : MediaRequest) (m : String) (r : Bool),
      failedUnlinkCount (mediaEndpoint d e req (BackendResult.err m) r) = 0 ∧
      unlinkCount (mediaEndpoint d e req (BackendResult.err m) r) =
        (if req.file.isSome ∧ r = false then 1 else 0) := by
  rintro d e ⟨file, p⟩ m r
  cases file <;> cases r <;> exact ⟨rfl, rfl⟩

/-- C1 counterexample: an audio invocation that did upload a file (so the
claim demands disposal count 1), whose backend call fails while the asset
was removed externally during the call — the guarded catch-side cleanup
skips the unlink, so the disposal count is 0, not 1. -/
theorem unlink_skipped_when_asset_gone_and_backend_fails :
    (MediaRequest.mk (some (UploadedFile.mk "uploads/a1" "audio/mpeg" [9, 9]))
        (some "x")).file.isSome = true ∧
    unlinkCount (generateFromAudio
        (MediaRequest.mk (some (UploadedFile.mk "uploads/a1" "audio/mpeg" [9, 9]))
          (some "x"))
        (BackendResult.err "boom") true) = 0 :=
  ⟨rfl, rfl⟩

/-- C1 amended: with no uploaded file the unlink count is 0; with an
uploaded file it is 1 — always after the backend call resolves and never
before it begins — except on the one path where the backend fails after
the asset was removed externally during the call, where the guarded
cleanup skips the unlink (count 0, the resource being already gone). -/
theorem disposal_count_characterization :
    ∀ (d e : String) (req : MediaRequest) (b : BackendResult) (r : Bool),
      unlinkCount (mediaEndpoint d e req b r) =
        (match req.file, b, r with
         | none, _, _ => 0
         | some _, BackendResult.err _, true => 0
         | some _, _, _ => 1) ∧
      unlinksBeforeBackend (mediaEndpoint d e req b r) = 0 := by
  rintro d e ⟨file, p⟩ b r
  cases file <;> cases b <;> cases r <;> exact ⟨rfl, rfl⟩

/-- C2 counterexample: an image invocation whose backend succeeds with
"Hi there" but whose temporary file was removed externally before the
success-path unlink: the unlink throws, the catch maps it to status 500
with the unlink error's message, and the caller never sees the generated
text. -/
theorem disposal_failure_discards_success_response :
    (generateFromImage
        (MediaRequest.mk (some (UploadedFile.mk "uploads/i2" "image/png" [7]))
          (some "hi"))
        (BackendResult.ok "Hi there") true).status = 500 ∧
    (generateFromImage
        (MediaRequest.mk (some (UploadedFile.mk "uploads/i2" "image/png" [7]))
          (some "hi"))
        (BackendResult.ok "Hi there") true).body =
      RespBody.error (unlinkFailMsg "uploads/i2") ∧
    (generateFromImage
        (MediaRequest.mk (some (UploadedFile.mk "uploads/i2" "image/png" [7]))
          (some "hi"))
        (BackendResult.ok "Hi there") true).body ≠ RespBody.text "Hi there" :=
  ⟨rfl, rfl, by decide⟩

/-- C2 amended: after a successful generation the caller receives the 200
success response exactly when the temporary file still exists at disposal
time; if disposal fails because the asset was removed externally, the
handler instead responds 500 with the unlink error's message — a disposal
failure does downgrade the successful outcome. -/
theorem success_response_requires_surviving_asset :
    ∀ (d e : String) (f : UploadedFile) (p : Option String) (t : String) (r : Bool),
      (mediaEndpoint d e ⟨some f, p⟩ (BackendResult.ok t) r).status =
        (if r then 500 else 200) ∧
      (mediaEndpoint d e ⟨some f, p⟩ (BackendResult.ok t) r).body =
        (if r then RespBody.error (unlinkFailMsg f.path) else RespBody.text t) := by
  intro d e f p t r
  cases r <;> exact ⟨rfl, rfl⟩

/-- C3 counterexample: on the success branch, disposing an already-missing
resource is not a no-op — the unguarded `fs.unlinkSync` throws (one failed
unlink attempt) and the handler observably turns a successful generation
into a 500 response. -/
theorem success_branch_disposal_raises_on_missing :
    failedUnlinkCount (generateFromDocument
        (MediaRequest.mk (some (UploadedFile.mk "uploads/d1" "application/pdf" [2, 3]))
          none)
        (BackendResult.ok "summary") true) = 1 ∧
    (generateFromDocument
        (MediaRequest.mk (some (UploadedFile.mk "uploads/d1" "application/pdf" [2, 3]))
          none)
        (BackendResult.ok "summary") true).status = 500 :=
  ⟨rfl, rfl⟩

/-- C3 amended: disposal never fails on the error branch (the existsSync
guard makes unlinking a missing resource a no-op there), but on the
success branch disposing an already-missing resource throws, and the
handler surfaces that failure as a 500 response. -/
theorem disposal_guarded_only_on_error_branch :
    ∀ (d e : String) (req : MediaRequest) (m : String) (r : Bool)
      (f : UploadedFile) (p : Option String) (t : String),
      failedUnlinkCount (mediaEndpoint d e req (BackendResult.err m) r) = 0 ∧
      failedUnlinkCount (mediaEndpoint d e ⟨some f, p⟩ (BackendResult.ok t) true) = 1 ∧
      (mediaEndpoint d e ⟨some f, p⟩ (BackendResult.ok t) true).status = 500 := by
  rintro d e ⟨file, q⟩ m r f p t
  cases file <;> cases r <;> exact ⟨rfl, rfl, rfl⟩

end GeminiGateway
